import Mathlib

/-
Verification of the PrecisionADC library (fitzterra/PrecisionADC) against its
natural-language specification.

The development shallowly embeds the library code:
- readVcc, the supply-voltage estimator built on the bandgap ADC sample;
- readSerial, the keyTab-driven serial key decoder;
- toEEPROM and fromEEPROM, the persistence adapter;
- calibrateBG, the interactive two-state calibration controller.

Machine integers are modelled as Nat with explicit reduction modulo 2 ^ 16
where the code casts to uint16_t. Fallible paths return Option.
-/

/- ## Voltage estimator -/

/-- Embeds PrecisionADC readVcc for a given bandgap sample bgVal:
the C code computes
  uint32_t vcc = (bgRefmV * 1024L) / bgVal; return (uint16_t)vcc;
The product bgRefmV * 1024 is at most 65535 * 1024 which fits in the
32-bit intermediate, so only the final uint16_t cast truncates, which the
model expresses as reduction mod 65536. When bgVal is zero the C division
is a division by zero, undefined behaviour with no defined result, which
the model marks as none. -/
def readVcc (bgRefmV bgVal : Nat) : Option Nat :=
  if bgVal = 0 then none
  else some ((bgRefmV * 1024 / bgVal) % 65536)

/-- The estimator in the argument order used by the specification:
estimateSupply (rawBandgapSample, referenceConstant). -/
def estimateSupply (a r : Nat) : Option Nat :=
  readVcc r a

/-- Modelled from the spec wording only, for comparison with the code:
round(referenceConstant * FULL_SCALE / rawBandgapSample) as
nearest-integer rounding (half rounds up) of the exact rational quotient
p / q. -/
def roundNearest (p q : Nat) : Nat :=
  (2 * p + q) / (2 * q)

/-- Claim C1: the code has no guard for a zero bandgap sample; evaluating
readVcc at bgVal = 0 reaches the C division by zero, which has no defined
result (modelled as none), rather than producing the defined error or
sentinel value the claim requires. -/
theorem readVcc_zero_sample_undefined (r : Nat) : estimateSupply 0 r = none := by
  rfl

/-- Claim C2, counterexample: at sample a = 1023 and reference r = 1000 the
code returns 1000 (truncating division) while nearest-integer rounding of
1000 * 1024 / 1023 is 1001, so the claim as stated is false. -/
theorem readVcc_not_round_counterexample :
    estimateSupply 1023 1000 = some 1000 ∧
    roundNearest (1000 * 1024) 1023 = 1001 := by
  constructor
  · rfl
  · rfl

/-- Claim C2, amended: for every raw bandgap sample a in [1, 1024] and
reference constant r in [1000, 1200], readVcc returns the truncating
(floor) integer quotient r * 1024 / a reduced modulo 2 ^ 16 by the
uint16_t return cast; it does not round to nearest. -/
theorem readVcc_truncating_div (a r : Nat)
    (h1 : 1 ≤ a) (h2 : a ≤ 1024) (h3 : 1000 ≤ r) (h4 : r ≤ 1200) :
    estimateSupply a r = some ((r * 1024 / a) % 65536) := by
  have ha : a ≠ 0 := by omega
  simp [estimateSupply, readVcc, ha]

/-- Witness for readVcc_truncating_div at a = 3, r = 1100. -/
theorem readVcc_truncating_div_witness :
    estimateSupply 3 1100 = some 47786 :=
  (readVcc_truncating_div 3 1100 (by decide) (by decide) (by decide)
    (by decide)).trans (by decide)

/-- Claim C3, counterexample: with r = 1200 the uint16_t cast wraps the
value at a = 15 (quotient 81920 wraps to 16384) but not at a = 19
(quotient 64673), so the estimate is not monotonically decreasing on
[1, 1024]: a smaller sample yields a smaller returned estimate. -/
theorem estimateSupply_not_antitone_counterexample :
    estimateSupply 15 1200 = some 16384 ∧
    estimateSupply 19 1200 = some 64673 ∧
    16384 < 64673 := by
  refine ⟨by rfl, by rfl, by decide⟩

/-- Claim C3, amended: for a fixed reference constant r in [1000, 1200],
the estimate returned by readVcc is monotonically decreasing in the raw
sample on [19, 1024], the range on which the quotient always fits in
uint16_t so the return cast does not wrap. -/
theorem estimateSupply_antitone_from19 (r a1 a2 v1 v2 : Nat)
    (hr1 : 1000 ≤ r) (hr2 : r ≤ 1200)
    (h1 : 19 ≤ a1) (h12 : a1 < a2) (h2 : a2 ≤ 1024)
    (e1 : estimateSupply a1 r = some v1)
    (e2 : estimateSupply a2 r = some v2) :
    v2 ≤ v1 := by
  have ha1 : a1 ≠ 0 := by omega
  have ha2 : a2 ≠ 0 := by omega
  have hlit : (1228800 : Nat) / 19 = 64673 := by norm_num
  have bound : ∀ a : Nat, 19 ≤ a → r * 1024 / a < 65536 := by
    intro a ha
    have hb1 : r * 1024 / a ≤ 1228800 / a :=
      Nat.div_le_div_right (by omega)
    have hb2 : (1228800 : Nat) / a ≤ 1228800 / 19 :=
      Nat.div_le_div_left ha (by omega)
    omega
  have m1 : r * 1024 / a1 < 65536 := bound a1 h1
  have m2 : r * 1024 / a2 < 65536 := bound a2 (by omega)
  simp [estimateSupply, readVcc, ha1, Nat.mod_eq_of_lt m1] at e1
  simp [estimateSupply, readVcc, ha2, Nat.mod_eq_of_lt m2] at e2
  have hmono : r * 1024 / a2 ≤ r * 1024 / a1 :=
    Nat.div_le_div_left (Nat.le_of_lt h12) (by omega)
  omega

/-- Witness for estimateSupply_antitone_from19 at r = 1100, a1 = 19,
a2 = 20. -/
theorem estimateSupply_antitone_from19_witness : 56320 ≤ 59284 :=
  estimateSupply_antitone_from19 1100 19 20 59284 56320
    (by decide) (by decide) (by decide) (by decide) (by decide)
    (by decide) (by decide)

/- ## Serial key decoder -/

/-- Carriage return, discarded by readSerial. -/
def CR : Nat := 13

/-- Line feed, discarded by readSerial. -/
def LF : Nat := 10

/-- Maximum number of bytes of a multi-byte key; second dimension of
keyTab and size of the stack buffer buf in readSerial. -/
def KBUFSZ : Nat := 3

/-- Sentinel for no decoded key. -/
def NO_KEY : Int := -1

/-- Index of the numeral one key in keyTab. -/
def KEY_1 : Int := 0

/-- Index of the numeral two key in keyTab. -/
def KEY_2 : Int := 1

/-- Index of the space key in keyTab. -/
def KEY_SPC : Int := 2

/-- Index of the up-arrow key in keyTab. -/
def KEY_AUP : Int := 3

/-- Index of the down-arrow key in keyTab. -/
def KEY_ADN : Int := 4

/-- Index of the escape key in keyTab. -/
def KEY_ESC : Int := 5

/-- Index of the q key in keyTab. -/
def KEY_q : Int := 6

/-- Index of the j key in keyTab. -/
def KEY_j : Int := 7

/-- Index of the k key in keyTab. -/
def KEY_k : Int := 8

/-- The keyboard scan table from the header: each row is a KBUFSZ-wide
byte array, unused trailing slots zero-padded exactly as the C array
initialiser leaves them. Rows, in order: the byte for 1, the byte for 2,
space, ESC [ A, ESC [ B, ESC, q, j, k. -/
def keyTab : List (List Nat) :=
  [[49, 0, 0], [50, 0, 0], [32, 0, 0],
   [27, 91, 65], [27, 91, 66], [27, 0, 0],
   [113, 0, 0], [106, 0, 0], [107, 0, 0]]

/-- Write value v at index i of a byte list, extending with zeros past the
end. Indices at or beyond KBUFSZ model memory past the C array bounds;
the state field writes records every index written so out-of-bounds
accesses are visible. -/
def setBuf (l : List Nat) (i v : Nat) : List Nat :=
  match i, l with
  | 0, [] => [v]
  | 0, _ :: xs => v :: xs
  | i + 1, [] => 0 :: setBuf [] i v
  | i + 1, x :: xs => x :: setBuf xs i v

/-- The inner matching while loop of readSerial for one keyTab row,
unrolled for KBUFSZ = 3: counts how many leading positions of the row
agree with the buffer, both read with zero padding. -/
def matchLen (key buf : List Nat) : Nat :=
  if key.getD 0 0 = buf.getD 0 0 then
    if key.getD 1 0 = buf.getD 1 0 then
      if key.getD 2 0 = buf.getD 2 0 then 3 else 2
    else 1
  else 0

/-- The for loop over keyTab in readSerial: rows whose first byte differs
from the buffer are skipped; a row matching all KBUFSZ positions sets
matchedKey to its index (later rows overwrite); any other row with a
matching first byte bumps the partial-match counter. Accumulates
(matchedKey, partialCount). -/
def scanAux : List (List Nat) → Nat → List Nat → Int × Nat → Int × Nat
  | [], _, _, acc => acc
  | key :: rest, k, buf, acc =>
    if key.getD 0 0 = buf.getD 0 0 then
      if matchLen key buf = 3 then scanAux rest (k + 1) buf (Int.ofNat k, acc.2)
      else scanAux rest (k + 1) buf (acc.1, acc.2 + 1)
    else scanAux rest (k + 1) buf acc

/-- One full scan of the key table against the buffer, starting from
matchedKey = NO_KEY and zero partial matches as the C code resets them
before each scan. -/
def scanStep (buf : List Nat) : Int × Nat :=
  scanAux keyTab 0 buf (NO_KEY, 0)

/-- State carried across loop iterations of readSerial: buffer contents,
next buffer index, last matchedKey, and the trace of buffer indices
written (for bounds accounting). -/
structure RSState where
  buf : List Nat
  bufIdx : Nat
  matchedKey : Int
  writes : List Nat
deriving DecidableEq

/-- Initial readSerial state: zeroed KBUFSZ-byte buffer, index 0,
matchedKey = NO_KEY. -/
def rsInit : RSState :=
  { buf := [0, 0, 0], bufIdx := 0, matchedKey := NO_KEY, writes := [] }

/-- One iteration of the readSerial while loop that reads byte b, with
more indicating whether Serial.available() reports a further buffered
byte at the early-return check. Returns some k when the iteration
executes a return statement with value k, none when the loop continues.
Mirrors the C code: write the byte at bufIdx; discard CR and LF by
zeroing the slot; otherwise rescan the table, return matchedKey when a
full match exists with no partial matches and no byte is available,
return NO_KEY when there are no partial matches or bufIdx has reached
KBUFSZ, else advance bufIdx. -/
def stepByte (s : RSState) (b : Nat) (more : Bool) : Option Int × RSState :=
  let buf1 := setBuf s.buf s.bufIdx b
  if b = CR ∨ b = LF then
    (none, { s with buf := setBuf buf1 s.bufIdx 0,
                    writes := s.writes ++ [s.bufIdx, s.bufIdx] })
  else
    let scan := scanStep buf1
    if scan.1 ≠ NO_KEY ∧ scan.2 = 0 ∧ more = false then
      (some scan.1, { s with buf := buf1, matchedKey := scan.1,
                             writes := s.writes ++ [s.bufIdx] })
    else if scan.2 = 0 ∨ s.bufIdx = KBUFSZ then
      (some NO_KEY, { s with buf := buf1, matchedKey := scan.1,
                             writes := s.writes ++ [s.bufIdx] })
    else
      (none, { s with buf := buf1, matchedKey := scan.1,
                      bufIdx := s.bufIdx + 1,
                      writes := s.writes ++ [s.bufIdx] })

/-- Run the readSerial loop over a byte sequence that all arrives within
the timeout window; at each step Serial.available() reports whether bytes
of the sequence remain buffered. When the sequence is exhausted the
timeout elapses and the loop falls through, returning matchedKey. -/
def runBytes : RSState → List Nat → Int × RSState
  | s, [] => (s.matchedKey, s)
  | s, b :: rest =>
    let r := stepByte s b (!rest.isEmpty)
    match r.1 with
    | some k => (k, r.2)
    | none => runBytes r.2 rest

/-- Embeds readSerial on a fully buffered input sequence: with nothing
available it returns NO_KEY at once, otherwise it runs the decode loop. -/
def readSerial (input : List Nat) : Int :=
  if input.isEmpty then NO_KEY else (runBytes rsInit input).1

/-- Claim C4: at the step where byte 32 has been read with byte 120 still
buffered, the space row fully matches and no row partially matches, yet
readSerial returns NO_KEY instead of the last fully matched entry: the
early-return guard also requires the transport to be empty, and the
fallthrough returns NO_KEY unconditionally, discarding the match. -/
theorem readSerial_discards_full_match :
    readSerial [32, 120] = NO_KEY ∧
    scanStep (setBuf [0, 0, 0] 0 32) = (KEY_SPC, 0) := by
  constructor
  · rfl
  · rfl

/-- Claim C5: feeding the four bytes ESC [ A x within one timeout window
makes readSerial write buffer index 3 = KBUFSZ, one past the end of the
KBUFSZ-byte stack array buf, because the bufIdx == KBUFSZ guard runs only
after the write of the next byte. -/
theorem readSerial_oob_write :
    (runBytes rsInit [27, 91, 65, 120]).2.writes = [0, 1, 2, 3] ∧
    KBUFSZ = 3 := by
  constructor
  · rfl
  · rfl

/-- Claim C6: feeding exactly ESC [ A within the timeout yields the
up-arrow key once the window elapses, and feeding ESC alone resolves to
the escape key on timeout since the escape row is a full entry of
keyTab. -/
theorem readSerial_arrow_and_escape :
    readSerial [27, 91, 65] = KEY_AUP ∧ readSerial [27] = KEY_ESC := by
  constructor
  · rfl
  · rfl

/-- Claim C7: feeding the single byte 32 with nothing further buffered
returns the space key by the early-return path of the very first loop
iteration (stepByte yields some KEY_SPC), without waiting for the timeout
to elapse. -/
theorem readSerial_space_immediate :
    (stepByte rsInit 32 false).1 = some KEY_SPC ∧
    readSerial [32] = KEY_SPC := by
  constructor
  · rfl
  · rfl

/- ## Persistence adapter -/

/-- The EEPROM record layout bgMem: a five-byte label (four characters
plus terminating zero) and the stored bandgap reference. The label list
holds the five raw bytes of the char array. -/
structure bgMem where
  label : List Nat
  bgRef : Nat
deriving DecidableEq

/-- The five bytes of the bgID signature written by bgEEPROMID, that is
b, g, I, D followed by the terminating zero. strcmp of the stored label
against this template returns zero exactly when the five stored bytes
equal these. -/
def bgID : List Nat := [98, 103, 73, 68, 0]

/-- Embeds toEEPROM: stores the current reference into the template
record and writes it at the fixed slot, so the slot afterwards holds the
bgID label and the reference. -/
def toEEPROM (bgRefmV : Nat) : bgMem :=
  { label := bgID, bgRef := bgRefmV }

/-- Embeds fromEEPROM: reads the record at the fixed slot; when strcmp
finds the stored label equal to the bgID signature it adopts the stored
reference and reports true, otherwise it leaves the current reference
unchanged and reports false. Returns the success flag and the resulting
bgRefmV. -/
def fromEEPROM (slot : bgMem) (bgRefmV : Nat) : Bool × Nat :=
  if slot.label = bgID then (true, slot.bgRef) else (false, bgRefmV)

/-- An EEPROM slot that was never written: erased EEPROM bytes read as
255, which does not carry the bgID signature. -/
def erasedSlot : bgMem :=
  { label := [255, 255, 255, 255, 255], bgRef := 0 }

/-- Claim C9: saving reference 1125 and loading it back succeeds and
restores 1125 for any prior reference, and loading a slot whose label is
not the bgID signature (never written or foreign content) fails and
leaves the reference unchanged. -/
theorem eeprom_roundtrip (slot : bgMem) (r0 r1 : Nat) :
    fromEEPROM (toEEPROM 1125) r0 = (true, 1125) ∧
    (slot.label ≠ bgID → fromEEPROM slot r1 = (false, r1)) := by
  constructor
  · rfl
  · intro h
    simp [fromEEPROM, h]

/-- Witness for eeprom_roundtrip at the erased slot. -/
theorem eeprom_roundtrip_witness :
    fromEEPROM (toEEPROM 1125) 1100 = (true, 1125) ∧
    fromEEPROM erasedSlot 1100 = (false, 1100) :=
  ⟨(eeprom_roundtrip erasedSlot 1100 1100).1,
   (eeprom_roundtrip erasedSlot 1100 1100).2 (by decide)⟩

/- ## Calibration controller -/

/-- Menu state constant of calibrateBG, the character code of A. -/
def FT_STATE_MENU : Nat := 65

/-- Tuning state constant of calibrateBG, the character code of B. -/
def FT_STATE_TUNE : Nat := 66

/-- One item written to the serial output by calibrateBG: the menu text,
a live display line carrying the computed Vcc and current reference, the
EEPROM save and retrieve messages, the no-saved-value failure message,
and the up and down acknowledgements. -/
inductive CalOut where
  | menu : CalOut
  | vccLine : Option Nat → Nat → CalOut
  | saved : CalOut
  | retrieved : CalOut
  | noSaved : CalOut
  | upMsg : CalOut
  | downMsg : CalOut
deriving DecidableEq

/-- State of one calibrateBG loop iteration: the controller state
character, the in-memory reference bgRefmV, the EEPROM slot contents,
the next live-update time, and the output written so far. -/
structure CalState where
  state : Nat
  bgRefmV : Nat
  slot : bgMem
  nextUpdate : Nat
  out : List CalOut
deriving DecidableEq

/-- One iteration of the calibrateBG while loop, given the decoded key
from readSerial, the current millis value, and the raw bandgap sample the
hardware would deliver for a live display tick. The Bool is true when the
iteration executes the return statement that exits the loop. Mirrors the
if chain of the C code: on NO_KEY a due live update in tuning state
prints Vcc and the reference and reschedules; space toggles the state,
reprinting the menu when entering it; escape or q exits from menu and
returns to menu from tuning; in menu state key 2 saves to EEPROM and key
1 loads from it, jumping to tuning on success and staying in menu with a
failure message otherwise; in tuning state the up and k keys increment
bgRefmV and the down and j keys decrement it, both with uint16_t
wraparound. -/
def calStep (s : CalState) (key : Int) (now sample : Nat) : Bool × CalState :=
  if key = NO_KEY then
    if s.state = FT_STATE_TUNE ∧ s.nextUpdate ≤ now then
      (false, { s with
        out := s.out ++ [CalOut.vccLine (estimateSupply sample s.bgRefmV) s.bgRefmV],
        nextUpdate := now + 1000 })
    else (false, s)
  else if key = KEY_SPC then
    if s.state = FT_STATE_MENU then
      (false, { s with state := FT_STATE_TUNE })
    else
      (false, { s with state := FT_STATE_MENU, out := s.out ++ [CalOut.menu] })
  else if key = KEY_ESC ∨ key = KEY_q then
    if s.state = FT_STATE_MENU then (true, s)
    else
      (false, { s with state := FT_STATE_MENU, out := s.out ++ [CalOut.menu] })
  else if s.state = FT_STATE_MENU then
    if key ≠ KEY_1 ∧ key ≠ KEY_2 then (false, s)
    else if key = KEY_2 then
      (false, { s with slot := toEEPROM s.bgRefmV,
                       out := s.out ++ [CalOut.saved],
                       state := FT_STATE_TUNE })
    else
      let r := fromEEPROM s.slot s.bgRefmV
      if r.1 then
        (false, { s with bgRefmV := r.2,
                         out := s.out ++ [CalOut.retrieved],
                         state := FT_STATE_TUNE })
      else
        (false, { s with out := s.out ++ [CalOut.noSaved] })
  else
    if key = KEY_AUP ∨ key = KEY_k then
      (false, { s with out := s.out ++ [CalOut.upMsg],
                       bgRefmV := (s.bgRefmV + 1) % 65536 })
    else if key = KEY_ADN ∨ key = KEY_j then
      (false, { s with out := s.out ++ [CalOut.downMsg],
                       bgRefmV := (s.bgRefmV + 65535) % 65536 })
    else (false, s)

/-- Entry state of calibrateBG called at millis 0 with reference 1100 and
an erased EEPROM: menu printed, next live update due at 1000. -/
def cal0 : CalState :=
  { state := FT_STATE_MENU, bgRefmV := 1100, slot := erasedSlot,
    nextUpdate := 1000, out := [CalOut.menu] }

/-- Scenario state after a space key in menu state at millis 100. -/
def cal1 : CalState := (calStep cal0 KEY_SPC 100 256).2

/-- Scenario state after a no-key poll at millis 1500 with sample 256. -/
def cal2 : CalState := (calStep cal1 NO_KEY 1500 256).2

/-- Scenario state after the first up-arrow key. -/
def cal3 : CalState := (calStep cal2 KEY_AUP 1600 256).2

/-- Scenario state after the second up-arrow key. -/
def cal4 : CalState := (calStep cal3 KEY_AUP 1650 256).2

/-- Scenario state after the third up-arrow key. -/
def cal5 : CalState := (calStep cal4 KEY_AUP 1700 256).2

/-- Scenario state after the fourth up-arrow key. -/
def cal6 : CalState := (calStep cal5 KEY_AUP 1750 256).2

/-- Scenario state after the fifth up-arrow key. -/
def cal7 : CalState := (calStep cal6 KEY_AUP 1800 256).2

/-- Scenario state after an escape key in tuning state at millis 2100. -/
def cal8 : CalState := (calStep cal7 KEY_ESC 2100 256).2

/-- Claim C8: in the concrete scenario starting from the menu, space
moves the controller to tuning; the next no-key poll at least 1000
milliseconds after the last display emits exactly one line carrying both
the estimated supply (estimateSupply of the sample and current
reference) and the reference constant; five up keys raise bgRefmV by
exactly 5; escape in tuning returns to the menu; a second escape in the
menu exits the loop. -/
theorem calibrateBG_scenario :
    cal1.state = FT_STATE_TUNE ∧
    cal2.out = cal1.out ++ [CalOut.vccLine (estimateSupply 256 1100) 1100] ∧
    estimateSupply 256 1100 = some 4400 ∧
    cal7.bgRefmV = cal0.bgRefmV + 5 ∧
    cal8.state = FT_STATE_MENU ∧
    (calStep cal8 KEY_ESC 2200 256).1 = true := by
  refine ⟨by rfl, by rfl, by rfl, by rfl, by rfl, by rfl⟩

/-- Claim C10: in menu state with no valid record in the slot, the load
key leaves the loop running, appends exactly the failure message to the
output and changes nothing else: the state stays menu and bgRefmV is
untouched. -/
theorem calibrateBG_load_absent (s : CalState) (now sample : Nat)
    (hm : s.state = FT_STATE_MENU) (hl : s.slot.label ≠ bgID) :
    calStep s KEY_1 now sample =
      (false, { s with out := s.out ++ [CalOut.noSaved] }) := by
  simp [calStep, KEY_1, NO_KEY, KEY_SPC, KEY_ESC, KEY_q, KEY_2,
        fromEEPROM, hm, hl, FT_STATE_MENU, FT_STATE_TUNE]

/-- Witness for calibrateBG_load_absent at a concrete menu state over an
erased slot. -/
theorem calibrateBG_load_absent_witness :
    calStep cal0 KEY_1 0 256 =
      (false, { cal0 with out := cal0.out ++ [CalOut.noSaved] }) :=
  calibrateBG_load_absent cal0 0 256 (by rfl) (by decide)
